import Mathlib

/-!
Verification of `winspool.go` (package `winspool` of gorpher/winspool-cgo).

The Go source is shallowly embedded below.  Pure helpers (`convertJobState`,
`convertPrinterState`, `convertMediaSize`, `getScaleAndOffset`, the ticket
resolution block of `Print`) become Lean functions; the fallible native calls
made by `Print` / `newJobContext` / `free` become an explicit environment of
success flags, and the lifecycle is modelled as a function producing an event
trace of resource acquisitions and releases.

Machine integers are modelled as `Int` with explicit wrap-around helpers
(`i16`, `i32`, `u16`) applied exactly where the Go code performs a narrowing
conversion or a multiplication on a fixed-width type.
-/

set_option linter.unusedVariables false

/-! ## Fixed-width integer helpers -/

/-- Wrap an integer to the range of Go `int16` (what a Go `int16(x)` conversion does). -/
def i16 (z : ℤ) : ℤ := (z + 2 ^ 15) % 2 ^ 16 - 2 ^ 15

/-- Wrap an integer to the range of Go `int32` (what Go `int32` arithmetic produces). -/
def i32 (z : ℤ) : ℤ := (z + 2 ^ 31) % 2 ^ 32 - 2 ^ 31

/-- Wrap an integer to the range of Go `uint16` (what a Go `uint16(x)` conversion does). -/
def u16 (z : ℤ) : ℤ := z % 2 ^ 16

/-! ## Model types

Mirrors of the `model` package structures that `winspool.go` reads and
writes.  `model.VendorState` holds a single `Item` slice; a `nil`
`VendorState` pointer is modelled as `none`. -/

inductive CloudDeviceState
  | idle
  | processing
  | stopped
deriving DecidableEq, Repr

inductive VendorStateSeverity
  | info
  | warning
  | error
deriving DecidableEq, Repr

structure VendorStateItem where
  severity : VendorStateSeverity
  descriptionLocalized : String
deriving DecidableEq, Repr

structure PrinterStateSection where
  state : CloudDeviceState
  vendorState : Option (List VendorStateItem)
deriving DecidableEq, Repr

inductive JobStateType
  | queued
  | inProgress
  | done
  | stopped
  | aborted
deriving DecidableEq, Repr

inductive DeviceActionCause
  | printFailure
  | other
deriving DecidableEq, Repr

inductive UserActionCause
  | canceled
deriving DecidableEq, Repr

inductive DeviceStateCause
  | other
deriving DecidableEq, Repr

structure JobState where
  type : JobStateType
  deviceActionCause : Option DeviceActionCause := none
  userActionCause : Option UserActionCause := none
  deviceStateCause : Option DeviceStateCause := none
deriving DecidableEq, Repr

inductive ColorType
  | standardColor
  | standardMonochrome
  | custom
deriving DecidableEq, Repr

inductive DuplexType
  | noDuplex
  | longEdge
  | shortEdge
deriving DecidableEq, Repr

inductive PageOrientationType
  | portrait
  | landscape
  | auto
deriving DecidableEq, Repr

inductive FitToPageType
  | noFitting
  | fitToPage
deriving DecidableEq, Repr

structure ColorOption where
  vendorID : String
  type : ColorType
  isDefault : Bool
  customDisplayName : String
deriving DecidableEq, Repr

structure MediaSizeOption where
  widthMicrons : ℤ
  heightMicrons : ℤ
  isDefault : Bool
  vendorID : String
  customDisplayName : String
deriving DecidableEq, Repr

/-- Advertised capability groups of a printer's Description.  `Print` only
tests the groups for presence (`!= nil`), so groups whose payload it never
reads are carried as `Option Unit`. -/
structure PrinterDescriptionSection where
  color : Option (List ColorOption) := none
  duplex : Option Unit := none
  pageOrientation : Option Unit := none
  copies : Option Unit := none
  mediaSize : Option (List MediaSizeOption) := none
  collate : Option Unit := none
  fitToPage : Option Unit := none
deriving DecidableEq, Repr

structure ColorTicketItem where
  type : ColorType
  vendorID : String
deriving DecidableEq, Repr

structure MediaSizeTicketItem where
  widthMicrons : ℤ
  heightMicrons : ℤ
  vendorID : String
deriving DecidableEq, Repr

structure JobTicket where
  color : Option ColorTicketItem := none
  duplex : Option DuplexType := none
  pageOrientation : Option PageOrientationType := none
  copies : Option ℤ := none
  fitToPage : Option FitToPageType := none
  mediaSize : Option MediaSizeTicketItem := none
  collate : Option Bool := none
deriving DecidableEq, Repr

/-! ## Native constants

Modelled from the spec: the numeric values of the `DM*`, `JOB_STATUS_*` and
`PRINTER_STATUS_*` constants live in a repository file that is not part of
the provided sources; the standard Windows (wingdi.h / winspool.h) values
are used.  Every theorem below that quantifies over bitfields depends only
on the if-chain structure of the source, not on these particular values. -/

def DMCOLOR_MONOCHROME : ℤ := 1
def DMCOLOR_COLOR : ℤ := 2
def DMDUP_SIMPLEX : ℤ := 1
def DMDUP_VERTICAL : ℤ := 2
def DMDUP_HORIZONTAL : ℤ := 3
def DMORIENT_PORTRAIT : ℤ := 1
def DMORIENT_LANDSCAPE : ℤ := 2
def DMCOLLATE_FALSE : ℤ := 0
def DMCOLLATE_TRUE : ℤ := 1

def JOB_STATUS_PAUSED : ℕ := 0x1
def JOB_STATUS_ERROR : ℕ := 0x2
def JOB_STATUS_DELETING : ℕ := 0x4
def JOB_STATUS_SPOOLING : ℕ := 0x8
def JOB_STATUS_PRINTING : ℕ := 0x10
def JOB_STATUS_OFFLINE : ℕ := 0x20
def JOB_STATUS_PAPEROUT : ℕ := 0x40
def JOB_STATUS_PRINTED : ℕ := 0x80
def JOB_STATUS_DELETED : ℕ := 0x100
def JOB_STATUS_BLOCKED_DEVQ : ℕ := 0x200
def JOB_STATUS_USER_INTERVENTION : ℕ := 0x400
def JOB_STATUS_COMPLETE : ℕ := 0x1000
def JOB_STATUS_RETAINED : ℕ := 0x2000

def PRINTER_STATUS_PAUSED : ℕ := 0x1
def PRINTER_STATUS_ERROR : ℕ := 0x2
def PRINTER_STATUS_PENDING_DELETION : ℕ := 0x4
def PRINTER_STATUS_PAPER_JAM : ℕ := 0x8
def PRINTER_STATUS_PAPER_OUT : ℕ := 0x10
def PRINTER_STATUS_MANUAL_FEED : ℕ := 0x20
def PRINTER_STATUS_PAPER_PROBLEM : ℕ := 0x40
def PRINTER_STATUS_OFFLINE : ℕ := 0x80
def PRINTER_STATUS_IO_ACTIVE : ℕ := 0x100
def PRINTER_STATUS_BUSY : ℕ := 0x200
def PRINTER_STATUS_PRINTING : ℕ := 0x400
def PRINTER_STATUS_OUTPUT_BIN_FULL : ℕ := 0x800
def PRINTER_STATUS_NOT_AVAILABLE : ℕ := 0x1000
def PRINTER_STATUS_WAITING : ℕ := 0x2000
def PRINTER_STATUS_PROCESSING : ℕ := 0x4000
def PRINTER_STATUS_INITIALIZING : ℕ := 0x8000
def PRINTER_STATUS_WARMING_UP : ℕ := 0x10000
def PRINTER_STATUS_TONER_LOW : ℕ := 0x20000
def PRINTER_STATUS_NO_TONER : ℕ := 0x40000
def PRINTER_STATUS_PAGE_PUNT : ℕ := 0x80000
def PRINTER_STATUS_USER_INTERVENTION : ℕ := 0x100000
def PRINTER_STATUS_OUT_OF_MEMORY : ℕ := 0x200000
def PRINTER_STATUS_DOOR_OPEN : ℕ := 0x400000
def PRINTER_STATUS_SERVER_UNKNOWN : ℕ := 0x800000
def PRINTER_STATUS_POWER_SAVE : ℕ := 0x1000000
def PRINTER_ATTRIBUTE_WORK_OFFLINE : ℕ := 0x400

/-! ## Device settings (DEVMODE)

Modelled from the spec: the native settings blob carries, for each field,
a presence bit plus a value; `SetX` sets presence and value, `ClearX`
drops presence.  This is the tagged representation §9 of the spec calls
for, and exactly the view the `DevMode` getter/setter wrappers (a
repository file not under the provided sources) expose to `winspool.go`. -/

structure DevMode where
  dmColor : Option ℤ := none
  dmDuplex : Option ℤ := none
  dmOrientation : Option ℤ := none
  dmCopies : Option ℤ := none
  dmPaperSize : Option ℤ := none
  dmPaperLength : Option ℤ := none
  dmPaperWidth : Option ℤ := none
  dmCollate : Option ℤ := none
deriving DecidableEq, Repr

def DevMode.setColor (dm : DevMode) (v : ℤ) : DevMode := { dm with dmColor := some v }
def DevMode.setDuplex (dm : DevMode) (v : ℤ) : DevMode := { dm with dmDuplex := some v }
def DevMode.setOrientation (dm : DevMode) (v : ℤ) : DevMode := { dm with dmOrientation := some v }
def DevMode.setCopies (dm : DevMode) (v : ℤ) : DevMode := { dm with dmCopies := some v }
def DevMode.setPaperSize (dm : DevMode) (v : ℤ) : DevMode := { dm with dmPaperSize := some v }
def DevMode.setPaperLength (dm : DevMode) (v : ℤ) : DevMode := { dm with dmPaperLength := some v }
def DevMode.setPaperWidth (dm : DevMode) (v : ℤ) : DevMode := { dm with dmPaperWidth := some v }
def DevMode.setCollate (dm : DevMode) (v : ℤ) : DevMode := { dm with dmCollate := some v }
def DevMode.clearPaperSize (dm : DevMode) : DevMode := { dm with dmPaperSize := none }
def DevMode.clearPaperLength (dm : DevMode) : DevMode := { dm with dmPaperLength := none }
def DevMode.clearPaperWidth (dm : DevMode) : DevMode := { dm with dmPaperWidth := none }

/-! ## strconv.ParseInt(s, 10, 16)

Model of Go `strconv.ParseInt` with base 10 and bit size 16: an optional
sign followed by at least one decimal digit, rejected when the value falls
outside the `int16` range. -/

def decDigits : List Char → Option ℕ → Option ℕ
  | [], acc => acc
  | c :: cs, acc =>
    if '0' ≤ c ∧ c ≤ '9' then
      decDigits cs (some ((acc.getD 0) * 10 + (c.toNat - 48)))
    else none

def parseDec (s : String) : Option ℤ :=
  match s.data with
  | [] => none
  | '+' :: rest => (decDigits rest none).map Int.ofNat
  | '-' :: rest => (decDigits rest none).map (fun n => -(n : ℤ))
  | l => (decDigits l none).map Int.ofNat

def parseInt16 (s : String) : Option ℤ :=
  (parseDec s).bind fun z =>
    if -(2 ^ 15) ≤ z ∧ z < 2 ^ 15 then some z else none

/-! ## Ticket resolution (the body of `Print`, lines 752–811)

Each Go block `if ticket.X != nil && printer.Description.X != nil { ... }`
becomes one `apply*` function; `resolveTicket` chains them in source
order.  A failed `strconv.ParseInt` is the only error (`return 0, err` in
the source). -/

def colorValueByType : ColorType → Option ℤ
  | .standardColor => some DMCOLOR_COLOR
  | .standardMonochrome => some DMCOLOR_MONOCHROME
  | _ => none

def duplexValueByType : DuplexType → Option ℤ
  | .noDuplex => some DMDUP_SIMPLEX
  | .longEdge => some DMDUP_VERTICAL
  | .shortEdge => some DMDUP_HORIZONTAL

def pageOrientationByType : PageOrientationType → Option ℤ
  | .portrait => some DMORIENT_PORTRAIT
  | .landscape => some DMORIENT_LANDSCAPE
  | .auto => none

def applyColor (d : PrinterDescriptionSection) (t : JobTicket) (dm : DevMode) :
    Except String DevMode :=
  match t.color, d.color with
  | some c, some _ =>
    match colorValueByType c.type with
    | some v => .ok (dm.setColor v)
    | none =>
      if c.vendorID ≠ "" then
        match parseInt16 c.vendorID with
        | some v => .ok (dm.setColor (i16 v))
        | none => .error "strconv.ParseInt: parsing color vendor id: invalid syntax"
      else .ok dm
  | _, _ => .ok dm

def applyDuplex (d : PrinterDescriptionSection) (t : JobTicket) (dm : DevMode) : DevMode :=
  match t.duplex, d.duplex with
  | some dt, some _ =>
    match duplexValueByType dt with
    | some v => dm.setDuplex v
    | none => dm
  | _, _ => dm

def applyOrientation (d : PrinterDescriptionSection) (t : JobTicket) (dm : DevMode) : DevMode :=
  match t.pageOrientation, d.pageOrientation with
  | some ot, some _ =>
    match pageOrientationByType ot with
    | some v => dm.setOrientation v
    | none => dm
  | _, _ => dm

def applyCopies (d : PrinterDescriptionSection) (t : JobTicket) (dm : DevMode) : DevMode :=
  match t.copies, d.copies with
  | some n, some _ => if 0 < n then dm.setCopies (i16 n) else dm
  | _, _ => dm

def fitToPageOf (d : PrinterDescriptionSection) (t : JobTicket) : Bool :=
  match t.fitToPage, d.fitToPage with
  | some ft, some _ => ft = FitToPageType.fitToPage
  | _, _ => false

def applyMediaSize (d : PrinterDescriptionSection) (t : JobTicket) (dm : DevMode) :
    Except String DevMode :=
  match t.mediaSize, d.mediaSize with
  | some m, some _ =>
    if m.vendorID ≠ "" then
      match parseInt16 m.vendorID with
      | some v => .ok (((dm.setPaperSize (i16 v)).clearPaperLength).clearPaperWidth)
      | none => .error "strconv.ParseInt: parsing media size vendor id: invalid syntax"
    else
      .ok (((dm.clearPaperSize).setPaperLength
              (i16 (m.heightMicrons.tdiv 10))).setPaperWidth
              (i16 (m.widthMicrons.tdiv 10)))
  | _, _ => .ok dm

def applyCollate (d : PrinterDescriptionSection) (t : JobTicket) (dm : DevMode) : DevMode :=
  match t.collate, d.collate with
  | some b, some _ =>
    if b then dm.setCollate DMCOLLATE_TRUE else dm.setCollate DMCOLLATE_FALSE
  | _, _ => dm

/-- The full ticket-resolution phase of `Print`, in source order, returning
the mutated device settings and the fit-to-page flag. -/
def resolveTicket (d : PrinterDescriptionSection) (t : JobTicket) (dm : DevMode) :
    Except String (DevMode × Bool) :=
  match applyColor d t dm with
  | .error e => .error e
  | .ok dm1 =>
    let dm2 := applyDuplex d t dm1
    let dm3 := applyOrientation d t dm2
    let dm4 := applyCopies d t dm3
    let fit := fitToPageOf d t
    match applyMediaSize d t dm4 with
    | .error e => .error e
    | .ok dm5 => .ok (applyCollate d t dm5, fit)

/-! ## convertJobState (lines 468–499) -/

def convertJobState (wsStatus : ℕ) : JobState :=
  if wsStatus &&& (JOB_STATUS_SPOOLING ||| JOB_STATUS_PRINTING) ≠ 0 then
    { type := .inProgress }
  else if wsStatus &&& (JOB_STATUS_PRINTED ||| JOB_STATUS_COMPLETE) ≠ 0 then
    { type := .done }
  else if wsStatus &&& JOB_STATUS_PAUSED ≠ 0 ∨ wsStatus = 0 then
    { type := .done }
  else if wsStatus &&& JOB_STATUS_ERROR ≠ 0 then
    { type := .aborted, deviceActionCause := some .printFailure }
  else if wsStatus &&& (JOB_STATUS_DELETING ||| JOB_STATUS_DELETED) ≠ 0 then
    { type := .aborted, userActionCause := some .canceled }
  else if wsStatus &&& (JOB_STATUS_OFFLINE ||| JOB_STATUS_PAPEROUT |||
      JOB_STATUS_BLOCKED_DEVQ ||| JOB_STATUS_USER_INTERVENTION) ≠ 0 then
    { type := .stopped, deviceStateCause := some .other }
  else
    { type := .aborted, deviceActionCause := some .other }

/-! ## GetJobState (lines 502–526)

The two native calls (`OpenPrinter`, `GetJob`) are passed in as results.
`ERROR_INVALID_PARAMETER` is the distinguished "job no longer exists"
error that `GetJobState` compares against. -/

inductive WinErr
  | invalidParameter
  | other (msg : String)
deriving DecidableEq, Repr

structure PrintJobStateDiff where
  state : JobState
deriving DecidableEq, Repr

def GetJobState (openRes : Except WinErr Unit) (getJobRes : Except WinErr ℕ) :
    Except WinErr PrintJobStateDiff :=
  match openRes with
  | .error e => .error e
  | .ok _ =>
    match getJobRes with
    | .error .invalidParameter =>
      .ok { state := { type := .aborted, deviceActionCause := some .other } }
    | .error e => .error e
    | .ok st => .ok { state := convertJobState st }

/-! ## The Color capability group of GetPrinters (lines 288–320) -/

def colorSection (getColor : Option ℤ) : Option (List ColorOption) :=
  match getColor with
  | some dc =>
    if dc = DMCOLOR_COLOR then
      some [⟨"2", .standardColor, true, "Color"⟩,
            ⟨"1", .standardMonochrome, false, "Monochrome"⟩]
    else if dc = DMCOLOR_MONOCHROME then
      some [⟨"1", .standardMonochrome, true, "Monochrome"⟩]
    else none
  | none => none

/-! ## convertMediaSize (lines 404–466)

The three capability arrays arrive as lists; the device defaults arrive in
the `DevMode`.  The loop over `i` with `sizes[2*i]`, `sizes[2*i+1]` is
modelled by pairing consecutive elements of `sizes` and zipping. -/

def pairUp : List ℤ → List (ℤ × ℤ)
  | w :: l :: rest => (w, l) :: pairUp rest
  | _ => []

/-- The device-default test of one loop iteration of `convertMediaSize`:
an exact paper-code match when the device settings carry a paper-size
code, otherwise an exact length+width match when they carry explicit
dimensions (`width`/`length` here are already in micrometers). -/
def entryIsDefault (dm : DevMode) (paper width length : ℤ) : Bool :=
  match dm.dmPaperSize with
  | some ds => decide (u16 ds = paper)
  | none =>
    match dm.dmPaperLength, dm.dmPaperWidth with
    | some dl, some dw => decide (dl = length ∧ dw = width)
    | _, _ => false

/-- The loop body of `convertMediaSize`: walks the zipped entries carrying
the `foundDef` flag; returns the built option list and the final flag.
Entry: (name, paper code, (width, length) in tenths-of-mm). -/
def buildOpts (dm : DevMode) : List (String × ℤ × ℤ × ℤ) → Bool →
    List MediaSizeOption × Bool
  | [], found => ([], found)
  | (name, paper, w, l) :: rest, found =>
    if name = "" then buildOpts dm rest found
    else
      let width := i32 (w * 100)
      let length := i32 (l * 100)
      let isDef : Bool := if found then false else entryIsDefault dm paper width length
      let o : MediaSizeOption :=
        { widthMicrons := width, heightMicrons := length, isDefault := isDef,
          vendorID := toString paper, customDisplayName := name }
      let (os, f) := buildOpts dm rest (found || isDef)
      (o :: os, f)

def setFirstDefault : List MediaSizeOption → List MediaSizeOption
  | [] => []
  | o :: os => { o with isDefault := true } :: os

/-- `convertMediaSize`: `none` models the `nil, nil` return on a length
mismatch of the three capability arrays. -/
def convertMediaSize (dm : DevMode) (names : List String) (papers : List ℤ)
    (sizes : List ℤ) : Option (List MediaSizeOption) :=
  if names.length = papers.length ∧ names.length = sizes.length / 2 then
    let entries := names.zip (papers.zip (pairUp sizes))
    let r := buildOpts dm (entries.map fun e => (e.1, e.2.1, e.2.2.1, e.2.2.2)) false
    some (if ¬ r.2 ∧ r.1 ≠ [] then setFirstDefault r.1 else r.1)
  else none

/-! ## getScaleAndOffset (lines 621–643)

The Go function works on `float64`; it is embedded over `ℚ` (the exact
field operations the formulas denote).  The pixel arguments are `int32`;
the products `pixels*72` are `int32` multiplications, so they wrap. -/

def getScaleAndOffset (wDocPoints hDocPoints : ℚ)
    (wPaperPixels hPaperPixels xMarginPixels yMarginPixels
     wPrintablePixels hPrintablePixels xDPI yDPI : ℤ) (fitToPage : Bool) :
    ℚ × ℚ × ℚ :=
  let wPaperPoints : ℚ := (i32 (wPaperPixels * 72) : ℚ) / (xDPI : ℚ)
  let hPaperPoints : ℚ := (i32 (hPaperPixels * 72) : ℚ) / (yDPI : ℚ)
  let pr : ℚ × ℚ :=
    if fitToPage then
      ((i32 (wPrintablePixels * 72) : ℚ) / (xDPI : ℚ),
       (i32 (hPrintablePixels * 72) : ℚ) / (yDPI : ℚ))
    else (wPaperPoints, hPaperPoints)
  let xScale := pr.1 / wDocPoints
  let yScale := pr.2 / hDocPoints
  let scale := if xScale < yScale then xScale else yScale
  (scale, (wPaperPoints - wDocPoints * scale) / 2,
   (hPaperPoints - hDocPoints * scale) / 2)

/-- Modelled from the spec: the scale/offset computation as §4.3 and §8 of
the spec word it — `min` of the per-axis ratios against the target area
(printable area when fitting, full paper otherwise), offsets centering
against the full paper, `points = pixels * 72 / dpi` in exact arithmetic. -/
def specScaleAndOffset (wDocPoints hDocPoints : ℚ)
    (wPaperPixels hPaperPixels wPrintablePixels hPrintablePixels xDPI yDPI : ℤ)
    (fitToPage : Bool) : ℚ × ℚ × ℚ :=
  let wPaperPoints : ℚ := (wPaperPixels * 72 : ℤ) / (xDPI : ℚ)
  let hPaperPoints : ℚ := (hPaperPixels * 72 : ℤ) / (yDPI : ℚ)
  let targetW : ℚ :=
    if fitToPage then ((wPrintablePixels * 72 : ℤ) : ℚ) / (xDPI : ℚ) else wPaperPoints
  let targetH : ℚ :=
    if fitToPage then ((hPrintablePixels * 72 : ℤ) : ℚ) / (yDPI : ℚ) else hPaperPoints
  let scale := min (targetW / wDocPoints) (targetH / hDocPoints)
  (scale, (wPaperPoints - wDocPoints * scale) / 2,
   (hPaperPoints - hDocPoints * scale) / 2)

/-! ## Helper lemmas -/

theorem i32_id {z : ℤ} (h1 : -(2 ^ 31) ≤ z) (h2 : z < 2 ^ 31) : i32 z = z := by
  unfold i32
  rw [Int.emod_eq_of_lt (by linarith) (by linarith)]
  ring

theorem ite_lt_eq_min (a b : ℚ) : (if a < b then a else b) = min a b := by
  rcases lt_or_le a b with h | h
  · rw [if_pos h, min_eq_left h.le]
  · rw [if_neg (not_lt.mpr h), min_eq_right h]

/-- C1: the explicit-dimensions branch of the media-size resolution in
`Print`, evaluated at an A4 ticket (210000µm × 297000µm, empty vendor id)
against a Description advertising media sizes: the code divides the
micrometer values by 10, setting paper length 29700 and width 21000 in the
device settings (the tenths-of-millimeter encoding the claim requires
would be 2970 × 2100, i.e. division by 100, the inverse of the ×100
conversion `convertMediaSize` itself performs); the paper-size code is
cleared, so only the explicit representation is populated. -/
theorem C1_print_media_size_divides_by_ten :
    resolveTicket
      { mediaSize := some [] }
      { mediaSize := some { widthMicrons := 210000, heightMicrons := 297000, vendorID := "" } }
      {} =
    Except.ok ({ dmPaperSize := none, dmPaperLength := some 29700,
                 dmPaperWidth := some 21000 }, false) ∧
    (297000 : ℤ).tdiv 10 = 29700 ∧ (297000 : ℤ).tdiv 100 = 2970 := by
  refine ⟨?_, by decide, by decide⟩
  rfl

/-- C5: `convertJobState` follows the fixed precedence: a spooling or
printing bit yields in-progress; else a printed/complete bit yields done;
else a paused bit or the zero bitfield yields done; else an error bit
yields aborted with print-failure cause; else a deleting/deleted bit
yields aborted with user-canceled cause; else an
offline/paper-out/blocked-in-queue/user-intervention bit yields stopped
with device-state-other cause; and any remaining unrecognized nonzero
combination yields aborted with device-action-other cause. -/
theorem C5_convertJobState_precedence (s : ℕ) :
    (s &&& (JOB_STATUS_SPOOLING ||| JOB_STATUS_PRINTING) ≠ 0 →
      convertJobState s = { type := .inProgress }) ∧
    (s &&& (JOB_STATUS_SPOOLING ||| JOB_STATUS_PRINTING) = 0 →
     s &&& (JOB_STATUS_PRINTED ||| JOB_STATUS_COMPLETE) ≠ 0 →
      convertJobState s = { type := .done }) ∧
    (s &&& (JOB_STATUS_SPOOLING ||| JOB_STATUS_PRINTING) = 0 →
     s &&& (JOB_STATUS_PRINTED ||| JOB_STATUS_COMPLETE) = 0 →
     (s &&& JOB_STATUS_PAUSED ≠ 0 ∨ s = 0) →
      convertJobState s = { type := .done }) ∧
    (s &&& (JOB_STATUS_SPOOLING ||| JOB_STATUS_PRINTING) = 0 →
     s &&& (JOB_STATUS_PRINTED ||| JOB_STATUS_COMPLETE) = 0 →
     s &&& JOB_STATUS_PAUSED = 0 → s ≠ 0 →
     s &&& JOB_STATUS_ERROR ≠ 0 →
      convertJobState s = { type := .aborted, deviceActionCause := some .printFailure }) ∧
    (s &&& (JOB_STATUS_SPOOLING ||| JOB_STATUS_PRINTING) = 0 →
     s &&& (JOB_STATUS_PRINTED ||| JOB_STATUS_COMPLETE) = 0 →
     s &&& JOB_STATUS_PAUSED = 0 → s ≠ 0 →
     s &&& JOB_STATUS_ERROR = 0 →
     s &&& (JOB_STATUS_DELETING ||| JOB_STATUS_DELETED) ≠ 0 →
      convertJobState s = { type := .aborted, userActionCause := some .canceled }) ∧
    (s &&& (JOB_STATUS_SPOOLING ||| JOB_STATUS_PRINTING) = 0 →
     s &&& (JOB_STATUS_PRINTED ||| JOB_STATUS_COMPLETE) = 0 →
     s &&& JOB_STATUS_PAUSED = 0 → s ≠ 0 →
     s &&& JOB_STATUS_ERROR = 0 →
     s &&& (JOB_STATUS_DELETING ||| JOB_STATUS_DELETED) = 0 →
     s &&& (JOB_STATUS_OFFLINE ||| JOB_STATUS_PAPEROUT |||
            JOB_STATUS_BLOCKED_DEVQ ||| JOB_STATUS_USER_INTERVENTION) ≠ 0 →
      convertJobState s = { type := .stopped, deviceStateCause := some .other }) ∧
    (s &&& (JOB_STATUS_SPOOLING ||| JOB_STATUS_PRINTING) = 0 →
     s &&& (JOB_STATUS_PRINTED ||| JOB_STATUS_COMPLETE) = 0 →
     s &&& JOB_STATUS_PAUSED = 0 → s ≠ 0 →
     s &&& JOB_STATUS_ERROR = 0 →
     s &&& (JOB_STATUS_DELETING ||| JOB_STATUS_DELETED) = 0 →
     s &&& (JOB_STATUS_OFFLINE ||| JOB_STATUS_PAPEROUT |||
            JOB_STATUS_BLOCKED_DEVQ ||| JOB_STATUS_USER_INTERVENTION) = 0 →
      convertJobState s = { type := .aborted, deviceActionCause := some .other }) := by
  refine ⟨?_, ?_, ?_, ?_, ?_, ?_, ?_⟩ <;> intros <;> simp_all [convertJobState]

/-- C5 witness: concrete bitfields hitting the in-progress, zero-is-done
and unrecognized-fallback conjuncts. -/
theorem C5_convertJobState_precedence_witness :
    convertJobState 0x8 = { type := .inProgress } ∧
    convertJobState 0 = { type := .done } ∧
    convertJobState 0x2000 = { type := .aborted, deviceActionCause := some .other } := by
  refine ⟨(C5_convertJobState_precedence 0x8).1 (by decide), ?_, ?_⟩
  · exact (C5_convertJobState_precedence 0).2.2.1 (by decide) (by decide) (Or.inr rfl)
  · exact (C5_convertJobState_precedence 0x2000).2.2.2.2.2.2
      (by decide) (by decide) (by decide) (by decide) (by decide) (by decide) (by decide)

/-- C7: when the printer opens but the job lookup fails with the
invalid-parameter ("job no longer exists") error, `GetJobState` returns a
normal result whose state is aborted with device-action-other cause; any
other lookup error is propagated as an error. -/
theorem C7_GetJobState_lookup_miss (getJobRes : Except WinErr ℕ) :
    (getJobRes = .error .invalidParameter →
      GetJobState (.ok ()) getJobRes =
        .ok { state := { type := .aborted, deviceActionCause := some .other } }) ∧
    (∀ msg, getJobRes = .error (.other msg) →
      GetJobState (.ok ()) getJobRes = .error (.other msg)) := by
  constructor
  · intro h; subst h; rfl
  · intro msg h; subst h; rfl

/-- C7 witness: both branches at concrete lookup results. -/
theorem C7_GetJobState_lookup_miss_witness :
    GetJobState (.ok ()) (.error .invalidParameter) =
      .ok { state := { type := .aborted, deviceActionCause := some .other } } ∧
    GetJobState (.ok ()) (.error (.other "access denied")) =
      .error (.other "access denied") :=
  ⟨(C7_GetJobState_lookup_miss (.error .invalidParameter)).1 rfl,
   (C7_GetJobState_lookup_miss (.error (.other "access denied"))).2 "access denied" rfl⟩

/-- C4: for valid inputs (pixel dimensions small enough that the `int32`
products `pixels*72` do not wrap), `getScaleAndOffset` returns
`scale = min(targetWidthPoints/docW, targetHeightPoints/docH)` with the
target area being the printable area in points when fitting and the full
paper otherwise, and offsets `(paperPts − doc*scale)/2` computed against
the full paper size in both modes — i.e. it coincides with the formula
the spec states (`specScaleAndOffset`). -/
theorem C4_getScaleAndOffset_correct (wDoc hDoc : ℚ)
    (wP hP xM yM wPr hPr xD yD : ℤ) (fit : Bool)
    (hwP1 : 0 ≤ wP * 72) (hwP2 : wP * 72 < 2 ^ 31)
    (hhP1 : 0 ≤ hP * 72) (hhP2 : hP * 72 < 2 ^ 31)
    (hwPr1 : 0 ≤ wPr * 72) (hwPr2 : wPr * 72 < 2 ^ 31)
    (hhPr1 : 0 ≤ hPr * 72) (hhPr2 : hPr * 72 < 2 ^ 31) :
    getScaleAndOffset wDoc hDoc wP hP xM yM wPr hPr xD yD fit =
      specScaleAndOffset wDoc hDoc wP hP wPr hPr xD yD fit := by
  unfold getScaleAndOffset specScaleAndOffset
  rw [i32_id (by linarith) hwP2, i32_id (by linarith) hhP2,
      i32_id (by linarith) hwPr2, i32_id (by linarith) hhPr2]
  cases fit <;> simp [ite_lt_eq_min]

/-- C4 witness: US-Letter sheet at 300 DPI (8.5×11in paper, 8×10.5in
printable area), 612×792pt document, fit-to-page on. -/
theorem C4_getScaleAndOffset_correct_witness :
    (0 : ℤ) ≤ 2550 * 72 ∧
    getScaleAndOffset 612 792 2550 3300 75 75 2400 3150 300 300 true =
      specScaleAndOffset 612 792 2550 3300 2400 3150 300 300 true :=
  ⟨by decide,
   C4_getScaleAndOffset_correct 612 792 2550 3300 75 75 2400 3150 300 300 true
     (by decide) (by decide) (by decide) (by decide)
     (by decide) (by decide) (by decide) (by decide)⟩

/-! ## Frame lemmas: an unadvertised capability group makes its apply
step the identity, whatever the ticket asks for. -/

theorem applyColor_none_desc {d : PrinterDescriptionSection} (h : d.color = none)
    (t : JobTicket) (dm : DevMode) : applyColor d t dm = .ok dm := by
  unfold applyColor
  rw [h]
  cases t.color <;> rfl

theorem applyDuplex_none_desc {d : PrinterDescriptionSection} (h : d.duplex = none)
    (t : JobTicket) (dm : DevMode) : applyDuplex d t dm = dm := by
  unfold applyDuplex
  rw [h]
  cases t.duplex <;> rfl

theorem applyOrientation_none_desc {d : PrinterDescriptionSection}
    (h : d.pageOrientation = none) (t : JobTicket) (dm : DevMode) :
    applyOrientation d t dm = dm := by
  unfold applyOrientation
  rw [h]
  cases t.pageOrientation <;> rfl

theorem applyCopies_none_desc {d : PrinterDescriptionSection} (h : d.copies = none)
    (t : JobTicket) (dm : DevMode) : applyCopies d t dm = dm := by
  unfold applyCopies
  rw [h]
  cases t.copies <;> rfl

theorem applyMediaSize_none_desc {d : PrinterDescriptionSection} (h : d.mediaSize = none)
    (t : JobTicket) (dm : DevMode) : applyMediaSize d t dm = .ok dm := by
  unfold applyMediaSize
  rw [h]
  cases t.mediaSize <;> rfl

theorem applyCollate_none_desc {d : PrinterDescriptionSection} (h : d.collate = none)
    (t : JobTicket) (dm : DevMode) : applyCollate d t dm = dm := by
  unfold applyCollate
  rw [h]
  cases t.collate <;> rfl

/-- C6: a ticket attribute whose capability group the Description does not
advertise is silently ignored: resolving the full ticket gives exactly the
same outcome (same device settings, same fit flag, no added error) as
resolving the ticket with that attribute removed, for each of color,
duplex, orientation, copies, media size and collate. -/
theorem C6_unadvertised_attribute_ignored (d : PrinterDescriptionSection)
    (t : JobTicket) (dm : DevMode) :
    (d.color = none →
      resolveTicket d t dm = resolveTicket d { t with color := none } dm) ∧
    (d.duplex = none →
      resolveTicket d t dm = resolveTicket d { t with duplex := none } dm) ∧
    (d.pageOrientation = none →
      resolveTicket d t dm = resolveTicket d { t with pageOrientation := none } dm) ∧
    (d.copies = none →
      resolveTicket d t dm = resolveTicket d { t with copies := none } dm) ∧
    (d.mediaSize = none →
      resolveTicket d t dm = resolveTicket d { t with mediaSize := none } dm) ∧
    (d.collate = none →
      resolveTicket d t dm = resolveTicket d { t with collate := none } dm) := by
  refine ⟨?_, ?_, ?_, ?_, ?_, ?_⟩ <;> intro h
  · unfold resolveTicket
    rw [applyColor_none_desc h, applyColor_none_desc h]
    rfl
  · have ec : applyColor d { t with duplex := none } dm = applyColor d t dm := rfl
    unfold resolveTicket
    rw [ec]
    cases applyColor d t dm with
    | error e => rfl
    | ok dm1 =>
      dsimp only
      rw [applyDuplex_none_desc h, applyDuplex_none_desc h]
      rfl
  · have ec : applyColor d { t with pageOrientation := none } dm = applyColor d t dm := rfl
    unfold resolveTicket
    rw [ec]
    cases applyColor d t dm with
    | error e => rfl
    | ok dm1 =>
      dsimp only
      rw [applyOrientation_none_desc h, applyOrientation_none_desc h]
      rfl
  · have ec : applyColor d { t with copies := none } dm = applyColor d t dm := rfl
    unfold resolveTicket
    rw [ec]
    cases applyColor d t dm with
    | error e => rfl
    | ok dm1 =>
      dsimp only
      rw [applyCopies_none_desc h, applyCopies_none_desc h]
      rfl
  · have ec : applyColor d { t with mediaSize := none } dm = applyColor d t dm := rfl
    unfold resolveTicket
    rw [ec]
    cases applyColor d t dm with
    | error e => rfl
    | ok dm1 =>
      dsimp only
      rw [applyMediaSize_none_desc h, applyMediaSize_none_desc h]
      rfl
  · have ec : applyColor d { t with collate := none } dm = applyColor d t dm := rfl
    unfold resolveTicket
    rw [ec]
    cases applyColor d t dm with
    | error e => rfl
    | ok dm1 =>
      dsimp only
      have em : applyMediaSize d { t with collate := none }
            (applyCopies d { t with collate := none }
              (applyOrientation d { t with collate := none }
                (applyDuplex d { t with collate := none } dm1))) =
          applyMediaSize d t (applyCopies d t (applyOrientation d t (applyDuplex d t dm1))) := rfl
      rw [em]
      cases applyMediaSize d t (applyCopies d t (applyOrientation d t (applyDuplex d t dm1))) with
      | error e => rfl
      | ok dm5 =>
        dsimp only
        rw [applyCollate_none_desc h, applyCollate_none_desc h]
        rfl

/-- C6 witness: a Description advertising nothing, against a ticket
requesting everything — erasing the ticket's color request changes
nothing about the resolution. -/
theorem C6_unadvertised_attribute_ignored_witness :
    resolveTicket {}
      { color := some ⟨.standardColor, ""⟩, duplex := some .shortEdge,
        pageOrientation := some .landscape, copies := some 3,
        fitToPage := some .fitToPage,
        mediaSize := some { widthMicrons := 210000, heightMicrons := 297000, vendorID := "9" },
        collate := some true } {} =
    resolveTicket {}
      { color := none, duplex := some .shortEdge,
        pageOrientation := some .landscape, copies := some 3,
        fitToPage := some .fitToPage,
        mediaSize := some { widthMicrons := 210000, heightMicrons := 297000, vendorID := "9" },
        collate := some true } {} :=
  (C6_unadvertised_attribute_ignored {}
    { color := some ⟨.standardColor, ""⟩, duplex := some .shortEdge,
      pageOrientation := some .landscape, copies := some 3,
      fitToPage := some .fitToPage,
      mediaSize := some { widthMicrons := 210000, heightMicrons := 297000, vendorID := "9" },
      collate := some true } {}).1 rfl

/-- C9 counterexample: a device whose default mode is monochrome gets a
Color capability group (so the group is not "included only when the
device reports a color-capable mode"), and that group has exactly one
option, not the two options {color, monochrome} the claim requires. -/
theorem C9_counterexample_monochrome_single_option :
    (colorSection (some DMCOLOR_MONOCHROME)).isSome = true ∧
    (colorSection (some DMCOLOR_MONOCHROME)).getD [] =
      [⟨"1", .standardMonochrome, true, "Monochrome"⟩] ∧
    ((colorSection (some DMCOLOR_MONOCHROME)).getD []).length = 1 := by
  refine ⟨rfl, rfl, rfl⟩

/-- C9 amended: the Color group is included exactly when the device
reports a color mode of color or monochrome.  When the default mode is
color it offers the two options color (default) and monochrome; when the
default mode is monochrome it offers the single option monochrome, marked
default; for no reported mode, or an unrecognized mode value, the group
is omitted. -/
theorem C9_color_section_amended (g : Option ℤ) :
    (g = some DMCOLOR_COLOR →
      colorSection g = some [⟨"2", .standardColor, true, "Color"⟩,
                             ⟨"1", .standardMonochrome, false, "Monochrome"⟩]) ∧
    (g = some DMCOLOR_MONOCHROME →
      colorSection g = some [⟨"1", .standardMonochrome, true, "Monochrome"⟩]) ∧
    (∀ c, g = some c → c ≠ DMCOLOR_COLOR → c ≠ DMCOLOR_MONOCHROME →
      colorSection g = none) ∧
    (g = none → colorSection g = none) := by
  refine ⟨?_, ?_, ?_, ?_⟩
  · intro h; subst h; rfl
  · intro h; subst h; rfl
  · intro c h hc hm; subst h
    simp [colorSection, hc, hm]
  · intro h; subst h; rfl

/-- C9 amended witness: the color-default and the unrecognized-mode cases
at concrete device values. -/
theorem C9_color_section_amended_witness :
    colorSection (some 2) = some [⟨"2", .standardColor, true, "Color"⟩,
                                  ⟨"1", .standardMonochrome, false, "Monochrome"⟩] ∧
    colorSection (some 7) = none :=
  ⟨(C9_color_section_amended (some 2)).1 rfl,
   (C9_color_section_amended (some 7)).2.2.1 7 rfl (by decide) (by decide)⟩

/-! ## Default-counting lemmas for convertMediaSize -/

theorem buildOpts_count (dm : DevMode) (entries : List (String × ℤ × ℤ × ℤ)) :
    ∀ found : Bool,
      ((buildOpts dm entries found).1.countP (fun o => o.isDefault) =
        if (buildOpts dm entries found).2 = true ∧ found = false then 1 else 0) ∧
      (found = true → (buildOpts dm entries found).2 = true) := by
  induction entries with
  | nil =>
    intro found
    cases found <;> simp [buildOpts]
  | cons e rest ih =>
    intro found
    obtain ⟨name, paper, w, l⟩ := e
    by_cases hn : name = ""
    · simpa [buildOpts, hn] using ih found
    · cases found with
      | true =>
        rcases hrec : buildOpts dm rest true with ⟨os, f⟩
        have hih := ih true
        rw [hrec] at hih
        have hf : f = true := hih.2 rfl
        subst hf
        have hcnt : os.countP (fun o => o.isDefault) = 0 := by simpa using hih.1
        simp [buildOpts, hn, hrec, List.countP_cons, hcnt]
      | false =>
        by_cases hdef : entryIsDefault dm paper (i32 (w * 100)) (i32 (l * 100)) = true
        · rcases hrec : buildOpts dm rest true with ⟨os, f⟩
          have hih := ih true
          rw [hrec] at hih
          have hf : f = true := hih.2 rfl
          subst hf
          have hcnt : os.countP (fun o => o.isDefault) = 0 := by simpa using hih.1
          simp [buildOpts, hn, hdef, hrec, List.countP_cons, hcnt]
        · simp only [Bool.not_eq_true] at hdef
          rcases hrec : buildOpts dm rest false with ⟨os, f⟩
          have hih := ih false
          rw [hrec] at hih
          have hcnt : os.countP (fun o => o.isDefault) = if f = true then 1 else 0 := by
            simpa using hih.1
          simp [buildOpts, hn, hdef, hrec, List.countP_cons, hcnt]

theorem setFirstDefault_count (os : List MediaSizeOption)
    (h : os.countP (fun o => o.isDefault) = 0) (hne : os ≠ []) :
    (setFirstDefault os).countP (fun o => o.isDefault) = 1 := by
  cases os with
  | nil => exact absurd rfl hne
  | cons o rest =>
    simp only [List.countP_cons] at h
    have h0 : rest.countP (fun o => o.isDefault) = 0 := by
      cases hb : o.isDefault with
      | true => rw [hb] at h; simp at h
      | false => rw [hb] at h; simpa using h
    simp [setFirstDefault, List.countP_cons, h0]

/-- C8: whenever `convertMediaSize` produces a non-empty media-size option
list, exactly one option in it has `isDefault = true` — the one the loop
discovered from the device defaults (paper-code match when the settings
carry a size code, length+width match otherwise) or, failing discovery,
the first option. -/
theorem C8_convertMediaSize_unique_default (dm : DevMode) (names : List String)
    (papers : List ℤ) (sizes : List ℤ) (os : List MediaSizeOption)
    (hconv : convertMediaSize dm names papers sizes = some os) (hne : os ≠ []) :
    os.countP (fun o => o.isDefault) = 1 := by
  unfold convertMediaSize at hconv
  by_cases hlen : names.length = papers.length ∧ names.length = sizes.length / 2
  · rw [if_pos hlen] at hconv
    dsimp only at hconv
    rcases hrec : buildOpts dm
        ((names.zip (papers.zip (pairUp sizes))).map fun e => (e.1, e.2.1, e.2.2.1, e.2.2.2))
        false with ⟨built, f⟩
    rw [hrec] at hconv
    have hcount := buildOpts_count dm
      ((names.zip (papers.zip (pairUp sizes))).map fun e => (e.1, e.2.1, e.2.2.1, e.2.2.2)) false
    rw [hrec] at hcount
    have hbuilt : built.countP (fun o => o.isDefault) = if f = true then 1 else 0 := by
      simpa using hcount.1
    cases f with
    | true =>
      have : os = built := by simpa using hconv.symm
      subst this
      simpa using hbuilt
    | false =>
      by_cases hb : built = []
      · subst hb
        simp at hconv
        exact absurd hconv hne
      · have : os = setFirstDefault built := by
          rw [if_pos (by simp [hb])] at hconv
          simpa using hconv.symm
        subst this
        exact setFirstDefault_count built (by simpa using hbuilt) hb
  · rw [if_neg hlen] at hconv
    exact absurd hconv (by simp)

/-- C8 witness: two paper entries, device default selected by paper-code
match on the second entry; the produced list has exactly one default. -/
theorem C8_convertMediaSize_unique_default_witness :
    convertMediaSize { dmPaperSize := some 9 } ["Letter", "A4"] [1, 9]
        [2159, 2794, 2100, 2970] =
      some [{ widthMicrons := 215900, heightMicrons := 279400, isDefault := false,
              vendorID := "1", customDisplayName := "Letter" },
            { widthMicrons := 210000, heightMicrons := 297000, isDefault := true,
              vendorID := "9", customDisplayName := "A4" }] ∧
    List.countP (fun o => o.isDefault)
      [({ widthMicrons := 215900, heightMicrons := 279400, isDefault := false,
          vendorID := "1", customDisplayName := "Letter" } : MediaSizeOption),
       { widthMicrons := 210000, heightMicrons := 297000, isDefault := true,
         vendorID := "9", customDisplayName := "A4" }] = 1 := by
  constructor
  · rfl
  · exact C8_convertMediaSize_unique_default { dmPaperSize := some 9 }
      ["Letter", "A4"] [1, 9] [2159, 2794, 2100, 2970] _ (by rfl) (by decide)

/-! ## convertPrinterState (lines 49–245)

Each Go block `if wsStatus&FLAG != 0 { [state override;] append item }`
becomes one step combinator application, in source order, threading the
(state, items) accumulator; the trailing block `if len(items) == 0 {
VendorState = nil }` becomes the final `if`. -/

abbrev PSAcc := CloudDeviceState × List VendorStateItem

/-- A block that only overrides the state (the printing/processing one). -/
def stepState (cond : Prop) [Decidable cond] (s : CloudDeviceState) (acc : PSAcc) : PSAcc :=
  if cond then (s, acc.2) else acc

/-- A block that forces the stopped state and appends a vendor-state item. -/
def stepStop (cond : Prop) [Decidable cond] (sev : VendorStateSeverity) (msg : String)
    (acc : PSAcc) : PSAcc :=
  if cond then (CloudDeviceState.stopped, acc.2 ++ [⟨sev, msg⟩]) else acc

/-- A block that appends a vendor-state item without touching the state. -/
def stepItem (cond : Prop) [Decidable cond] (sev : VendorStateSeverity) (msg : String)
    (acc : PSAcc) : PSAcc :=
  if cond then (acc.1, acc.2 ++ [⟨sev, msg⟩]) else acc

/-- The accumulator produced by the 24 condition blocks of
`convertPrinterState`, in source order. -/
def psAccum (wsStatus wsAttributes : ℕ) : PSAcc :=
  let acc : PSAcc := (CloudDeviceState.idle, [])
  let acc := stepState (wsStatus &&& (PRINTER_STATUS_PRINTING ||| PRINTER_STATUS_PROCESSING) ≠ 0)
    .processing acc
  let acc := stepStop (wsStatus &&& PRINTER_STATUS_PAUSED ≠ 0) .warning "printer paused" acc
  let acc := stepStop (wsStatus &&& PRINTER_STATUS_ERROR ≠ 0) .error "printer error" acc
  let acc := stepStop (wsStatus &&& PRINTER_STATUS_PENDING_DELETION ≠ 0) .error
    "printer is being deleted" acc
  let acc := stepStop (wsStatus &&& PRINTER_STATUS_PAPER_JAM ≠ 0) .error "paper jam" acc
  let acc := stepStop (wsStatus &&& PRINTER_STATUS_PAPER_OUT ≠ 0) .error "paper out" acc
  let acc := stepItem (wsStatus &&& PRINTER_STATUS_MANUAL_FEED ≠ 0) .info "manual feed mode" acc
  let acc := stepStop (wsStatus &&& PRINTER_STATUS_PAPER_PROBLEM ≠ 0) .error "paper problem" acc
  let acc := stepStop (wsStatus &&& PRINTER_STATUS_OFFLINE ≠ 0 ∨
    wsAttributes &&& PRINTER_ATTRIBUTE_WORK_OFFLINE ≠ 0) .error "printer is offline" acc
  let acc := stepItem (wsStatus &&& PRINTER_STATUS_IO_ACTIVE ≠ 0) .info "active I/O state" acc
  let acc := stepItem (wsStatus &&& PRINTER_STATUS_BUSY ≠ 0) .info "busy" acc
  let acc := stepStop (wsStatus &&& PRINTER_STATUS_OUTPUT_BIN_FULL ≠ 0) .error
    "output bin is full" acc
  let acc := stepStop (wsStatus &&& PRINTER_STATUS_NOT_AVAILABLE ≠ 0) .error
    "printer not available" acc
  let acc := stepItem (wsStatus &&& PRINTER_STATUS_WAITING ≠ 0) .error "waiting" acc
  let acc := stepItem (wsStatus &&& PRINTER_STATUS_INITIALIZING ≠ 0) .info "intitializing" acc
  let acc := stepItem (wsStatus &&& PRINTER_STATUS_WARMING_UP ≠ 0) .info "warming up" acc
  let acc := stepItem (wsStatus &&& PRINTER_STATUS_TONER_LOW ≠ 0) .warning "toner low" acc
  let acc := stepStop (wsStatus &&& PRINTER_STATUS_NO_TONER ≠ 0) .error "no toner" acc
  let acc := stepStop (wsStatus &&& PRINTER_STATUS_PAGE_PUNT ≠ 0) .error
    "cannot print the current page" acc
  let acc := stepStop (wsStatus &&& PRINTER_STATUS_USER_INTERVENTION ≠ 0) .error
    "user intervention required" acc
  let acc := stepStop (wsStatus &&& PRINTER_STATUS_OUT_OF_MEMORY ≠ 0) .error "out of memory" acc
  let acc := stepStop (wsStatus &&& PRINTER_STATUS_DOOR_OPEN ≠ 0) .error "door open" acc
  let acc := stepItem (wsStatus &&& PRINTER_STATUS_SERVER_UNKNOWN ≠ 0) .error
    "printer status unknown" acc
  let acc := stepItem (wsStatus &&& PRINTER_STATUS_POWER_SAVE ≠ 0) .info "power save mode" acc
  acc

def convertPrinterState (wsStatus wsAttributes : ℕ) : PrinterStateSection :=
  let acc := psAccum wsStatus wsAttributes
  { state := acc.1, vendorState := if acc.2 = [] then none else some acc.2 }

/-- The invariant threaded through the blocks: a stopped state implies at
least one vendor-state item has been appended. -/
def PSinv (acc : PSAcc) : Prop := acc.1 = CloudDeviceState.stopped → acc.2 ≠ []

theorem stepState_inv (cond : Prop) [Decidable cond] (s : CloudDeviceState) (acc : PSAcc)
    (hs : s ≠ CloudDeviceState.stopped) (h : PSinv acc) : PSinv (stepState cond s acc) := by
  unfold stepState
  split
  · exact fun hx => absurd hx hs
  · exact h

theorem stepStop_inv (cond : Prop) [Decidable cond] (sev : VendorStateSeverity) (msg : String)
    (acc : PSAcc) (h : PSinv acc) : PSinv (stepStop cond sev msg acc) := by
  unfold stepStop
  split
  · intro _; simp
  · exact h

theorem stepItem_inv (cond : Prop) [Decidable cond] (sev : VendorStateSeverity) (msg : String)
    (acc : PSAcc) (h : PSinv acc) : PSinv (stepItem cond sev msg acc) := by
  unfold stepItem
  split
  · intro _; simp
  · exact h

/-- C10: whenever `convertPrinterState` reports the stopped state, the
vendor-state list is present and non-empty — every condition that forces
the stopped state also appends a detail item, and the list is dropped
only when nothing was appended at all. -/
theorem PSinv_init : PSinv (CloudDeviceState.idle, []) := by
  intro h
  exact absurd h (by decide)

theorem C10_stopped_has_vendor_state (wsStatus wsAttributes : ℕ)
    (hstop : (convertPrinterState wsStatus wsAttributes).state = CloudDeviceState.stopped) :
    ∃ items, (convertPrinterState wsStatus wsAttributes).vendorState = some items ∧
      items ≠ [] := by
  have hinv : PSinv (psAccum wsStatus wsAttributes) := by
    unfold psAccum
    dsimp only
    repeat
      first
      | exact PSinv_init
      | apply stepItem_inv
      | apply stepStop_inv
      | apply stepState_inv _ _ _ (by decide)
  have hne : (psAccum wsStatus wsAttributes).2 ≠ [] := hinv hstop
  refine ⟨(psAccum wsStatus wsAttributes).2, ?_, hne⟩
  unfold convertPrinterState
  dsimp only
  rw [if_neg hne]

/-- C10 witness: the paused bit alone yields stopped with the single
"printer paused" warning item. -/
theorem C10_stopped_has_vendor_state_witness :
    (convertPrinterState 1 0).state = CloudDeviceState.stopped ∧
    ∃ items, (convertPrinterState 1 0).vendorState = some items ∧ items ≠ [] :=
  ⟨by decide, C10_stopped_has_vendor_state 1 0 (by decide)⟩

/-! ## The Print lifecycle (lines 538–619 and 735–833)

`newJobContext`, `free` and `Print` call fallible native operations; the
environment below fixes each call's outcome.  The functions return the
Go result together with the trace of resource acquisition/release events
performed, in order.  A resource whose acquisition call fails contributes
no acquisition event; a release call that is performed contributes its
release event even when it reports an error (`free` stops at the first
failing release, as the source does; the error-path cleanups inside
`newJobContext` ignore release errors).  The deferred
`jobContext.free()` of `Print` runs before the deferred semaphore
release, and its error is discarded, as with Go `defer`. -/

inductive Ev
  | acqSem
  | relSem
  | acqDoc
  | relDoc
  | acqPrinter
  | relPrinter
  | acqDC
  | relDC
  | begDoc
  | endDoc
  | acqSurf
  | relSurf
  | acqCtx
  | relCtx
deriving DecidableEq, Repr

/-- The five releasable resources of one print submission (the started
document counts separately from the device context: `StartDoc`/`EndDoc`
versus `CreateDC`/`DeleteDC`). -/
inductive Res
  | doc
  | printer
  | dc
  | startedDoc
  | surf
  | ctx
deriving DecidableEq, Repr

instance : Fintype Res :=
  ⟨⟨{.doc, .printer, .dc, .startedDoc, .surf, .ctx}, by decide⟩, by intro x; cases x <;> decide⟩

structure PrintEnv where
  popplerOk : Bool
  openPrinterOk : Bool
  propsGetOk : Bool
  propsSetOk : Bool
  createDCOk : Bool
  startDocOk : Bool
  surfOk : Bool
  ctxOk : Bool
  relCtxOk : Bool
  relSurfOk : Bool
  endDocOk : Bool
  relDCOk : Bool
  relPrinterOk : Bool
  pagesOk : Bool
  getJobOk : Bool
  jobPaused : Bool
  setCmdOk : Bool
  devMode0 : DevMode
  jobID : ℕ
deriving DecidableEq, Repr

/-- `newJobContext` (lines 538–593): acquisitions in source order, with
the source's explicit reverse-order cleanup on each failure path.
Returns whether the context was built, and the events performed. -/
def newJobContextTr (e : PrintEnv) : Bool × List Ev :=
  if ¬ e.popplerOk then (false, [])
  else if ¬ e.openPrinterOk then (false, [.acqDoc, .relDoc])
  else if ¬ e.propsGetOk then (false, [.acqDoc, .acqPrinter, .relPrinter, .relDoc])
  else if ¬ e.propsSetOk then (false, [.acqDoc, .acqPrinter, .relPrinter, .relDoc])
  else if ¬ e.createDCOk then (false, [.acqDoc, .acqPrinter, .relPrinter, .relDoc])
  else if ¬ e.startDocOk then
    (false, [.acqDoc, .acqPrinter, .acqDC, .relDC, .relPrinter, .relDoc])
  else if ¬ e.surfOk then
    (false, [.acqDoc, .acqPrinter, .acqDC, .begDoc, .endDoc, .relDC, .relPrinter, .relDoc])
  else if ¬ e.ctxOk then
    (false, [.acqDoc, .acqPrinter, .acqDC, .begDoc, .acqSurf, .relSurf, .endDoc, .relDC,
             .relPrinter, .relDoc])
  else (true, [.acqDoc, .acqPrinter, .acqDC, .begDoc, .acqSurf, .acqCtx])

/-- `free` (lines 595–619): releases in reverse order of acquisition,
stopping after the first release call that reports an error. -/
def freeTr (e : PrintEnv) : List Ev :=
  if ¬ e.relCtxOk then [.relCtx]
  else if ¬ e.relSurfOk then [.relCtx, .relSurf]
  else if ¬ e.endDocOk then [.relCtx, .relSurf, .endDoc]
  else if ¬ e.relDCOk then [.relCtx, .relSurf, .endDoc, .relDC]
  else if ¬ e.relPrinterOk then [.relCtx, .relSurf, .endDoc, .relDC, .relPrinter]
  else [.relCtx, .relSurf, .endDoc, .relDC, .relPrinter, .relDoc]

/-- `Print` (lines 735–833): acquire the admission slot, build the job
context, resolve the ticket into the device settings, render the pages,
query and retain the job; on return run the deferred `free` (when the
context was built) and then the deferred semaphore release. -/
def Print (e : PrintEnv) (d : PrinterDescriptionSection) (t : JobTicket) :
    Except String ℕ × List Ev :=
  match newJobContextTr e with
  | (false, tr) => (.error "newJobContext failed", .acqSem :: tr ++ [.relSem])
  | (true, tr) =>
    let body : Except String ℕ :=
      match resolveTicket d t e.devMode0 with
      | .error s => .error s
      | .ok _ =>
        if ¬ e.pagesOk then .error "printPage failed"
        else if ¬ e.getJobOk then .error "GetJob failed"
        else if e.jobPaused then .ok e.jobID
        else if ¬ e.setCmdOk then .error "SetJobCommand failed"
        else .ok e.jobID
    (body, .acqSem :: tr ++ freeTr e ++ [.relSem])

def acqOf : Ev → Option Res
  | .acqDoc => some .doc
  | .acqPrinter => some .printer
  | .acqDC => some .dc
  | .begDoc => some .startedDoc
  | .acqSurf => some .surf
  | .acqCtx => some .ctx
  | _ => none

def relOf : Ev → Option Res
  | .relDoc => some .doc
  | .relPrinter => some .printer
  | .relDC => some .dc
  | .endDoc => some .startedDoc
  | .relSurf => some .surf
  | .relCtx => some .ctx
  | _ => none

def acqSeq (tr : List Ev) : List Res := tr.filterMap acqOf

def relSeq (tr : List Ev) : List Res := tr.filterMap relOf

/-- No prefix of the trace releases a resource more often than it has
been acquired: releases happen after their acquisitions. -/
def balanced (tr : List Ev) : Prop :=
  ∀ n ≤ tr.length, ∀ r : Res,
    ((tr.take n).filterMap relOf).count r ≤ ((tr.take n).filterMap acqOf).count r

instance (tr : List Ev) : Decidable (balanced tr) := by
  unfold balanced
  infer_instance

/-- A trace is well-torn-down when every acquired resource is released,
the releases occur in exactly the reverse of the acquisition order and
after their acquisitions, and the admission slot is taken first and
released last. -/
def goodTrace (tr : List Ev) : Prop :=
  relSeq tr = (acqSeq tr).reverse ∧ balanced tr ∧
  tr.head? = some .acqSem ∧ tr.getLast? = some .relSem

instance (tr : List Ev) : Decidable (goodTrace tr) := by
  unfold goodTrace
  infer_instance

/-- C3 counterexample: with every acquisition succeeding but the
rendering-context destroy reporting an error, the exit path of `Print`
acquires the render surface and never releases it — `free` returns at the
first failing release, so this exit path leaks previously acquired
resources, contradicting the claim for all exit paths. -/
theorem C3_counterexample_release_failure_leaks :
    Ev.acqSurf ∈ (Print
      { popplerOk := true, openPrinterOk := true, propsGetOk := true, propsSetOk := true,
        createDCOk := true, startDocOk := true, surfOk := true, ctxOk := true,
        relCtxOk := false, relSurfOk := true, endDocOk := true, relDCOk := true,
        relPrinterOk := true, pagesOk := true, getJobOk := true, jobPaused := false,
        setCmdOk := true, devMode0 := {}, jobID := 7 } {} {}).2 ∧
    Ev.relSurf ∉ (Print
      { popplerOk := true, openPrinterOk := true, propsGetOk := true, propsSetOk := true,
        createDCOk := true, startDocOk := true, surfOk := true, ctxOk := true,
        relCtxOk := false, relSurfOk := true, endDocOk := true, relDCOk := true,
        relPrinterOk := true, pagesOk := true, getJobOk := true, jobPaused := false,
        setCmdOk := true, devMode0 := {}, jobID := 7 } {} {}).2 := by
  constructor <;> decide

/-- The trace component of `Print`, in terms of the job-context trace and
the deferred `free` trace. -/
theorem Print_trace (e : PrintEnv) (d : PrinterDescriptionSection) (t : JobTicket) :
    (Print e d t).2 =
      .acqSem :: (newJobContextTr e).2 ++
        (if (newJobContextTr e).1 then freeTr e else []) ++ [.relSem] := by
  rcases hctx : newJobContextTr e with ⟨b, tr⟩
  cases b <;> simp [Print, hctx]

/-- `newJobContextTr` produces one of seven trace shapes. -/
theorem newJobContextTr_spec (e : PrintEnv) :
    newJobContextTr e = (false, []) ∨
    newJobContextTr e = (false, [.acqDoc, .relDoc]) ∨
    newJobContextTr e = (false, [.acqDoc, .acqPrinter, .relPrinter, .relDoc]) ∨
    newJobContextTr e = (false, [.acqDoc, .acqPrinter, .acqDC, .relDC, .relPrinter, .relDoc]) ∨
    newJobContextTr e =
      (false, [.acqDoc, .acqPrinter, .acqDC, .begDoc, .endDoc, .relDC, .relPrinter, .relDoc]) ∨
    newJobContextTr e =
      (false, [.acqDoc, .acqPrinter, .acqDC, .begDoc, .acqSurf, .relSurf, .endDoc, .relDC,
               .relPrinter, .relDoc]) ∨
    newJobContextTr e = (true, [.acqDoc, .acqPrinter, .acqDC, .begDoc, .acqSurf, .acqCtx]) := by
  by_cases h1 : e.popplerOk
  · by_cases h2 : e.openPrinterOk
    · by_cases h3 : e.propsGetOk
      · by_cases h4 : e.propsSetOk
        · by_cases h5 : e.createDCOk
          · by_cases h6 : e.startDocOk
            · by_cases h7 : e.surfOk
              · by_cases h8 : e.ctxOk
                · simp [newJobContextTr, h1, h2, h3, h4, h5, h6, h7, h8]
                · simp [newJobContextTr, h1, h2, h3, h4, h5, h6, h7, h8]
              · simp [newJobContextTr, h1, h2, h3, h4, h5, h6, h7]
            · simp [newJobContextTr, h1, h2, h3, h4, h5, h6]
          · simp [newJobContextTr, h1, h2, h3, h4, h5]
        · simp [newJobContextTr, h1, h2, h3, h4]
      · simp [newJobContextTr, h1, h2, h3]
    · simp [newJobContextTr, h1, h2]
  · simp [newJobContextTr, h1]

/-- With every release call succeeding, `free` releases all five
resources in reverse order of acquisition. -/
theorem freeTr_ok {e : PrintEnv}
    (h1 : e.relCtxOk = true) (h2 : e.relSurfOk = true) (h3 : e.endDocOk = true)
    (h4 : e.relDCOk = true) (h5 : e.relPrinterOk = true) :
    freeTr e = [.relCtx, .relSurf, .endDoc, .relDC, .relPrinter, .relDoc] := by
  simp [freeTr, h1, h2, h3, h4, h5]

/-- C3 amended: on every exit path of `Print` — acquisition failures at
any step, ticket-resolution failure, page or finalization failures, and
success — provided the release calls themselves succeed, every acquired
resource is released, the releases occur in strict reverse order of
acquisition and after their acquisitions, and the admission slot is
acquired first and released last. -/
theorem C3_releases_reverse_order (e : PrintEnv) (d : PrinterDescriptionSection)
    (t : JobTicket)
    (h1 : e.relCtxOk = true) (h2 : e.relSurfOk = true) (h3 : e.endDocOk = true)
    (h4 : e.relDCOk = true) (h5 : e.relPrinterOk = true) :
    goodTrace (Print e d t).2 := by
  rw [Print_trace, freeTr_ok h1 h2 h3 h4 h5]
  rcases newJobContextTr_spec e with h | h | h | h | h | h | h <;> rw [h] <;> decide

/-- C3 amended witness: the all-successful environment. -/
theorem C3_releases_reverse_order_witness :
    goodTrace (Print
      { popplerOk := true, openPrinterOk := true, propsGetOk := true, propsSetOk := true,
        createDCOk := true, startDocOk := true, surfOk := true, ctxOk := true,
        relCtxOk := true, relSurfOk := true, endDocOk := true, relDCOk := true,
        relPrinterOk := true, pagesOk := true, getJobOk := true, jobPaused := false,
        setCmdOk := true, devMode0 := {}, jobID := 7 } {} {}).2 :=
  C3_releases_reverse_order _ {} {} rfl rfl rfl rfl rfl

/-- A media-size request with a non-empty unparsable vendor id, against a
Description advertising media sizes, makes the whole ticket resolution
fail. -/
theorem resolveTicket_mediaSize_err (d : PrinterDescriptionSection) (t : JobTicket)
    (m : MediaSizeTicketItem) (dm : DevMode)
    (hm : t.mediaSize = some m) (hv : m.vendorID ≠ "")
    (hp : parseInt16 m.vendorID = none) (hd : d.mediaSize.isSome = true) :
    ∃ msg, resolveTicket d t dm = .error msg := by
  obtain ⟨ms, hms⟩ := Option.isSome_iff_exists.mp hd
  have herr : ∀ dm' : DevMode, applyMediaSize d t dm' = .error
      "strconv.ParseInt: parsing media size vendor id: invalid syntax" := by
    intro dm'
    unfold applyMediaSize
    rw [hm, hms]
    simp [hv, hp]
  unfold resolveTicket
  cases applyColor d t dm with
  | error e => exact ⟨e, rfl⟩
  | ok dm1 =>
    dsimp only
    rw [herr]
    exact ⟨_, rfl⟩

/-- A color request whose type has no direct native mapping and whose
non-empty vendor id does not parse, against a Description advertising
color, makes the whole ticket resolution fail.  (A mapped color type is
applied directly and the vendor id is never consulted.) -/
theorem resolveTicket_color_err (d : PrinterDescriptionSection) (t : JobTicket)
    (c : ColorTicketItem) (dm : DevMode)
    (hc : t.color = some c) (hmap : colorValueByType c.type = none)
    (hv : c.vendorID ≠ "") (hp : parseInt16 c.vendorID = none)
    (hd : d.color.isSome = true) :
    ∃ msg, resolveTicket d t dm = .error msg := by
  obtain ⟨co, hco⟩ := Option.isSome_iff_exists.mp hd
  have herr : applyColor d t dm = .error
      "strconv.ParseInt: parsing color vendor id: invalid syntax" := by
    unfold applyColor
    rw [hc, hco]
    simp [hmap, hv, hp]
  unfold resolveTicket
  rw [herr]
  exact ⟨_, rfl⟩

/-- C2 counterexample: a ticket whose media-size vendor id does not parse
as an integer ("A4"), resolved against a printer advertising media sizes,
makes `Print` abort with the parse error — but the trace shows the
document handle (and the rest of the job context) was opened before the
abort, contradicting "before any device resource is opened". -/
theorem C2_counterexample_abort_after_resources_open :
    (Print
      { popplerOk := true, openPrinterOk := true, propsGetOk := true, propsSetOk := true,
        createDCOk := true, startDocOk := true, surfOk := true, ctxOk := true,
        relCtxOk := true, relSurfOk := true, endDocOk := true, relDCOk := true,
        relPrinterOk := true, pagesOk := true, getJobOk := true, jobPaused := false,
        setCmdOk := true, devMode0 := {}, jobID := 7 }
      { mediaSize := some [] }
      { mediaSize := some { widthMicrons := 210000, heightMicrons := 297000,
                            vendorID := "A4" } }).1 =
      .error "strconv.ParseInt: parsing media size vendor id: invalid syntax" ∧
    Ev.acqDoc ∈ (Print
      { popplerOk := true, openPrinterOk := true, propsGetOk := true, propsSetOk := true,
        createDCOk := true, startDocOk := true, surfOk := true, ctxOk := true,
        relCtxOk := true, relSurfOk := true, endDocOk := true, relDCOk := true,
        relPrinterOk := true, pagesOk := true, getJobOk := true, jobPaused := false,
        setCmdOk := true, devMode0 := {}, jobID := 7 }
      { mediaSize := some [] }
      { mediaSize := some { widthMicrons := 210000, heightMicrons := 297000,
                            vendorID := "A4" } }).2 := by
  constructor
  · rfl
  · decide

/-- C2 amended: a malformed (unparsable-as-integer) vendor identifier —
for media size, or for color when the requested color type has no direct
native mapping (a mapped type is applied without consulting the vendor
id) — aborts the print submission with a hard error, but only after the
job context — document handle, printer handle, device context, started
document, render surface and render context — has been opened; the
deferred teardown then runs before the error is returned. -/
theorem C2_malformed_vendor_id_aborts (e : PrintEnv) (d : PrinterDescriptionSection)
    (t : JobTicket)
    (ha1 : e.popplerOk = true) (ha2 : e.openPrinterOk = true) (ha3 : e.propsGetOk = true)
    (ha4 : e.propsSetOk = true) (ha5 : e.createDCOk = true) (ha6 : e.startDocOk = true)
    (ha7 : e.surfOk = true) (ha8 : e.ctxOk = true)
    (habort :
      (∃ c, t.color = some c ∧ colorValueByType c.type = none ∧ c.vendorID ≠ "" ∧
        parseInt16 c.vendorID = none ∧ d.color.isSome = true) ∨
      (∃ m, t.mediaSize = some m ∧ m.vendorID ≠ "" ∧
        parseInt16 m.vendorID = none ∧ d.mediaSize.isSome = true)) :
    (∃ msg, (Print e d t).1 = .error msg) ∧
    (Print e d t).2 =
      [.acqSem, .acqDoc, .acqPrinter, .acqDC, .begDoc, .acqSurf, .acqCtx] ++
        freeTr e ++ [.relSem] := by
  have hctx : newJobContextTr e =
      (true, [.acqDoc, .acqPrinter, .acqDC, .begDoc, .acqSurf, .acqCtx]) := by
    simp [newJobContextTr, ha1, ha2, ha3, ha4, ha5, ha6, ha7, ha8]
  have hres : ∃ msg, resolveTicket d t e.devMode0 = .error msg := by
    rcases habort with ⟨c, hc, hmap, hv, hp, hd⟩ | ⟨m, hm, hv, hp, hd⟩
    · exact resolveTicket_color_err d t c e.devMode0 hc hmap hv hp hd
    · exact resolveTicket_mediaSize_err d t m e.devMode0 hm hv hp hd
  obtain ⟨msg, hres⟩ := hres
  constructor
  · refine ⟨msg, ?_⟩
    simp [Print, hctx, hres]
  · simp [Print, hctx]

/-- C2 amended witness: both legs of the amended statement at concrete
inputs — an unmapped color type with vendor id "red", and a media size
with vendor id "A4", each against a Description advertising the group. -/
theorem C2_malformed_vendor_id_aborts_witness :
    ((∃ msg, (Print
      { popplerOk := true, openPrinterOk := true, propsGetOk := true, propsSetOk := true,
        createDCOk := true, startDocOk := true, surfOk := true, ctxOk := true,
        relCtxOk := true, relSurfOk := true, endDocOk := true, relDCOk := true,
        relPrinterOk := true, pagesOk := true, getJobOk := true, jobPaused := false,
        setCmdOk := true, devMode0 := {}, jobID := 7 }
      { color := some [] }
      { color := some { type := .custom, vendorID := "red" } }).1 = .error msg) ∧
    (Print
      { popplerOk := true, openPrinterOk := true, propsGetOk := true, propsSetOk := true,
        createDCOk := true, startDocOk := true, surfOk := true, ctxOk := true,
        relCtxOk := true, relSurfOk := true, endDocOk := true, relDCOk := true,
        relPrinterOk := true, pagesOk := true, getJobOk := true, jobPaused := false,
        setCmdOk := true, devMode0 := {}, jobID := 7 }
      { color := some [] }
      { color := some { type := .custom, vendorID := "red" } }).2 =
      [.acqSem, .acqDoc, .acqPrinter, .acqDC, .begDoc, .acqSurf, .acqCtx] ++
        freeTr
          { popplerOk := true, openPrinterOk := true, propsGetOk := true, propsSetOk := true,
            createDCOk := true, startDocOk := true, surfOk := true, ctxOk := true,
            relCtxOk := true, relSurfOk := true, endDocOk := true, relDCOk := true,
            relPrinterOk := true, pagesOk := true, getJobOk := true, jobPaused := false,
            setCmdOk := true, devMode0 := {}, jobID := 7 } ++ [.relSem]) ∧
    ((∃ msg, (Print
      { popplerOk := true, openPrinterOk := true, propsGetOk := true, propsSetOk := true,
        createDCOk := true, startDocOk := true, surfOk := true, ctxOk := true,
        relCtxOk := true, relSurfOk := true, endDocOk := true, relDCOk := true,
        relPrinterOk := true, pagesOk := true, getJobOk := true, jobPaused := false,
        setCmdOk := true, devMode0 := {}, jobID := 7 }
      { mediaSize := some [] }
      { mediaSize := some { widthMicrons := 210000, heightMicrons := 297000,
                            vendorID := "A4" } }).1 = .error msg) ∧
    (Print
      { popplerOk := true, openPrinterOk := true, propsGetOk := true, propsSetOk := true,
        createDCOk := true, startDocOk := true, surfOk := true, ctxOk := true,
        relCtxOk := true, relSurfOk := true, endDocOk := true, relDCOk := true,
        relPrinterOk := true, pagesOk := true, getJobOk := true, jobPaused := false,
        setCmdOk := true, devMode0 := {}, jobID := 7 }
      { mediaSize := some [] }
      { mediaSize := some { widthMicrons := 210000, heightMicrons := 297000,
                            vendorID := "A4" } }).2 =
      [.acqSem, .acqDoc, .acqPrinter, .acqDC, .begDoc, .acqSurf, .acqCtx] ++
        freeTr
          { popplerOk := true, openPrinterOk := true, propsGetOk := true, propsSetOk := true,
            createDCOk := true, startDocOk := true, surfOk := true, ctxOk := true,
            relCtxOk := true, relSurfOk := true, endDocOk := true, relDCOk := true,
            relPrinterOk := true, pagesOk := true, getJobOk := true, jobPaused := false,
            setCmdOk := true, devMode0 := {}, jobID := 7 } ++ [.relSem]) :=
  ⟨C2_malformed_vendor_id_aborts _ _ _
      rfl rfl rfl rfl rfl rfl rfl rfl
      (Or.inl ⟨{ type := .custom, vendorID := "red" },
        rfl, rfl, by decide, by decide, rfl⟩),
   C2_malformed_vendor_id_aborts _ _ _
      rfl rfl rfl rfl rfl rfl rfl rfl
      (Or.inr ⟨{ widthMicrons := 210000, heightMicrons := 297000, vendorID := "A4" },
        rfl, by decide, by decide, rfl⟩)⟩
